import Mathlib

/-!
# Verification of the sauceproxy-rest tunnel lifecycle controller

This file gives a shallow embedding, in Lean 4, of the core of the
sauceproxy REST client: the tunnel directory matching logic (`Find`),
the creation/wait protocol (`CreateWithTimeout` / `Tunnel.wait`), the
supervision activities (`serverStatusLoop`, `heartbeatLoop` of the
`part_001` revision and the combined `Tunnel.loop` of the `rest.go`
revision), and the transport envelope's non-2xx error construction.

The repository keeps several historical revisions of the same Go
package side by side; where two revisions of a function differ, both
are embedded and named apart (`Find` from `src/unnamed/part_001`
versus `FindRest` from `src/rest.go`, and so on).

Conventions of the embedding:
* Go `nil` slices become `none : Option (List α)`; non-nil slices
  become `some` of the list.
* Time is measured in whole seconds: `Int` for wall-clock instants
  (Unix timestamps), `Nat` for the polling clock of `Tunnel.wait`,
  where poll `i` happens `i` seconds after the deadline was taken
  (the loop body sleeps one second between polls and the HTTP round
  trip is not charged).
* A Go channel that is merely `nil` or initialized is `Option Unit`;
  the behaviour of the `ServerStatus` channel over a whole run is
  modelled as the pair of (all values ever delivered on it, whether
  it was closed).
* Fallible calls are `Except`-valued; the network is passed in as an
  explicit oracle (a list or function of poll outcomes), so every
  definition is executable.
-/

/-- The decoded body of `GET /tunnels/:id` (`serverStatus` struct,
`src/unnamed/part_001` lines 512-516): literal status string, nullable
user-shutdown flag, and assigned host. -/
structure serverStatus where
  status : String
  userShutdown : Option Bool
  host : String
deriving DecidableEq

/-- `Client.Status` (`src/unnamed/part_001` lines 532-547, identical
derivation in `src/rest.go` lines 525-547): the effective status is
`"user shutdown"` whenever the nullable `user_shutdown` flag is
present and true, else the literal status string. -/
def effectiveStatus (s : serverStatus) : String :=
  if s.userShutdown = some true then "user shutdown" else s.status

/-- One tunnel record of the directory listing (`tunnelState`,
`src/unnamed/part_001` lines 207-211): remote id, optional tunnel
name (Go decodes a JSON `null` name to `""`), domain list. -/
structure tunnelState where
  Id : String
  TunnelIdentifier : String
  DomainNames : List String
deriving DecidableEq

/-- `checkOverlappingDomains` (`src/unnamed/part_001` lines 237-246):
true iff some local domain equals some remote domain. -/
def checkOverlappingDomains (localDomains remoteDomains : List String) : Bool :=
  localDomains.any fun localDomain =>
    remoteDomains.any fun remoteDomain => localDomain = remoteDomain

/-- Modelled from the spec: `searchDomains` is called by the
`src/rest.go` revision of `Client.Find` (line 255) but is defined
nowhere under `src/`; the spec (section 4.2) prescribes that for
domain matching "any shared domain is a match", which is the same
overlap test as `checkOverlappingDomains`. -/
def searchDomains (localDomains remoteDomains : List String) : Bool :=
  checkOverlappingDomains localDomains remoteDomains

/-- `Client.Find` of the `src/unnamed/part_001` revision (lines
252-273), with the fetched listing passed in: an unnamed query
(`name = ""`) matches on overlapping domains, a named query matches
on the tunnel name only. Matches accumulate in listing order. -/
def Find (name : String) (domains : List String) : List tunnelState → List String
  | [] => []
  | state :: rest =>
    if name = "" then
      if checkOverlappingDomains domains state.DomainNames then
        state.Id :: Find name domains rest
      else
        Find name domains rest
    else
      if state.TunnelIdentifier = name then
        state.Id :: Find name domains rest
      else
        Find name domains rest

/-- `Client.Find` of the `src/rest.go` revision (lines 241-261): a
named match appends and continues to the next entry; otherwise the
entry is still matched on overlapping domains (`searchDomains`),
whether or not `name` is empty. -/
def FindRest (name : String) (domains : List String) : List tunnelState → List String
  | [] => []
  | state :: rest =>
    if name ≠ "" ∧ state.TunnelIdentifier = name then
      state.Id :: FindRest name domains rest
    else if searchDomains domains state.DomainNames then
      state.Id :: FindRest name domains rest
    else
      FindRest name domains rest

/-- The outcome the server-status activity observes on one tick: the
result of `t.Status()` — either a failed poll (the `err != nil`
branch) or the effective status string it returned. -/
inductive StatusPoll where
  | failed : StatusPoll
  | polled (status : String) : StatusPoll
deriving DecidableEq

/-- A successful poll observing anything other than `"running"`; a
failed poll observes nothing. -/
def observedDown : StatusPoll → Bool
  | .failed => false
  | .polled s => s ≠ "running"

/-- `Tunnel.serverStatusLoop` (`src/unnamed/part_001` lines 455-469)
over the finite prefix of tick outcomes the environment produces.
Returns the list of every value the loop sends on the `ServerStatus`
channel over the whole run, paired with whether it closed the
channel.  A failed poll is ignored and the loop keeps ticking; a
successful poll of a non-`"running"` status sends that status, closes
the channel and returns, consuming no further tick. -/
def serverStatusLoop : List StatusPoll → List String × Bool
  | [] => ([], false)
  | .failed :: rest => serverStatusLoop rest
  | .polled s :: rest =>
    if s = "running" then serverStatusLoop rest
    else ([s], true)

/-- `ClientStatus` (`src/unnamed/part_001` lines 405-408): the
liveness record delivered by the external caller; `LastStatusChange`
is a Unix timestamp in seconds. -/
structure ClientStatus where
  Connected : Bool
  LastStatusChange : Int
deriving DecidableEq

/-- `heartBeatRequest` (`src/unnamed/part_001` lines 564-567): the
body `Client.Ping` posts — the connected flag and the whole seconds
elapsed since the last recorded status change. -/
structure heartBeatRequest where
  KGPConnected : Bool
  StatusChangeDuration : Int
deriving DecidableEq

/-- One wake-up of `Tunnel.heartbeatLoop`: either a fresh liveness
update arrives on the `ClientStatus` channel, or the heartbeat ticker
fires. -/
inductive HBEvent where
  | update (cs : ClientStatus)
  | tick : HBEvent
deriving DecidableEq

/-- A heartbeat-loop wake-up with its wall-clock time (`time.Now()`
in Unix seconds, used by `time.Since`) and whether the `Ping` request
the loop issues at that wake-up fails — the loop reads neither
backwards nor forwards into this flag, which models that the error
return of `Ping` is ignored. -/
structure HBEv where
  now : Int
  ev : HBEvent
  pingFails : Bool
deriving DecidableEq

/-- The select body of `Tunnel.heartbeatLoop` (`src/unnamed/part_001`
lines 434-449), carrying the loop state (current `connected` flag and
`lastChange` timestamp): a delivered update overwrites the state and
pings immediately with the fresh values; a ticker fire pings with the
held values.  The result is the list of every heartbeat request
issued, in order; the outcome of each request is ignored and the loop
never stops of its own accord. -/
def hbRun (connected : Bool) (lastChange : Int) : List HBEv → List heartBeatRequest
  | [] => []
  | e :: rest =>
    match e.ev with
    | .update cs =>
      ⟨cs.Connected, e.now - cs.LastStatusChange⟩ ::
        hbRun cs.Connected cs.LastStatusChange rest
    | .tick =>
      ⟨connected, e.now - lastChange⟩ :: hbRun connected lastChange rest

/-- `Tunnel.heartbeatLoop` (`src/unnamed/part_001` lines 428-450):
before the first wake-up the held state is `connected = false` and
`lastChange = time.Now()` at loop start. -/
def heartbeatLoop (start : Int) (events : List HBEv) : List heartBeatRequest :=
  hbRun false start events

/-- Strips a heartbeat wake-up of its ping outcome, leaving the data
the loop body actually reads. -/
def stripPing (e : HBEv) : Int × HBEvent :=
  (e.now, e.ev)

/-- One wake-up of the combined supervision loop `Tunnel.loop` of the
`src/rest.go` revision: a liveness update delivered on the
`ClientStatus` channel, a server-status ticker fire together with the
outcome `t.Status()` then produces, or a heartbeat ticker fire at a
given wall-clock time. -/
inductive LoopEvent where
  | clientUpdate (cs : ClientStatus)
  | termTick (poll : StatusPoll)
  | heartbeatTick (now : Int)
deriving DecidableEq

/-- Whether a loop wake-up is a liveness update delivery. -/
def LoopEvent.isClientUpdate : LoopEvent → Bool
  | .clientUpdate _ => true
  | _ => false

/-- A server-status ticker fire whose poll observed a non-`"running"`
status. -/
def observedDownEvent : LoopEvent → Bool
  | .termTick p => observedDown p
  | _ => false

/-- An observable effect of `Tunnel.loop`: a heartbeat request posted
by `sendHeartBeat`, or a status string delivered on the
`ServerStatus` channel. -/
inductive LoopAction where
  | heartbeat (req : heartBeatRequest)
  | deliverStatus (s : String)
deriving DecidableEq

/-- The status strings among a list of loop effects, i.e. everything
delivered on the `ServerStatus` channel. -/
def statusDeliveries : List LoopAction → List String
  | [] => []
  | .deliverStatus s :: rest => s :: statusDeliveries rest
  | .heartbeat _ :: rest => statusDeliveries rest

/-- The select body of `Tunnel.loop` (`src/rest.go` lines 453-479),
carrying the held `connected` flag and `lastChange` timestamp.
Returns every effect produced, in order, and whether the
`ServerStatus` channel was closed.  An update only overwrites the
held state (this revision does not ping on update); a failed status
poll is ignored; a non-`"running"` status is delivered once, the
channel is closed and the loop returns, consuming no further
wake-up. -/
def loopRun (connected : Bool) (lastChange : Int) :
    List LoopEvent → List LoopAction × Bool
  | [] => ([], false)
  | .clientUpdate cs :: rest => loopRun cs.Connected cs.LastStatusChange rest
  | .termTick .failed :: rest => loopRun connected lastChange rest
  | .termTick (.polled s) :: rest =>
    if s = "running" then loopRun connected lastChange rest
    else ([.deliverStatus s], true)
  | .heartbeatTick now :: rest =>
    ((.heartbeat ⟨connected, now - lastChange⟩) :: (loopRun connected lastChange rest).1,
      (loopRun connected lastChange rest).2)

/-- `Tunnel.loop` (`src/rest.go` lines 442-480): before entering the
select loop it performs a blocking receive on the `ClientStatus`
channel (line 449).  A ticker that fires while the loop is still
blocked causes no poll and no heartbeat, so wake-ups before the
first delivered update produce no effect; once an update arrives the
select loop runs with that update as the initial held state. -/
def loop : List LoopEvent → List LoopAction × Bool
  | [] => ([], false)
  | .clientUpdate cs :: rest => loopRun cs.Connected cs.LastStatusChange rest
  | .termTick _ :: rest => loop rest
  | .heartbeatTick _ :: rest => loop rest

/-- Go's duration pretty-printing (`time.Duration.String()`)
restricted to whole seconds under a minute, e.g. `"5s"`;
`Tunnel.wait` interpolates it into its timeout error. -/
def durationString (seconds : Nat) : String :=
  toString seconds ++ "s"

/-- The timeout error of `Tunnel.wait` (`src/unnamed/part_001` lines
499-501): a formatted message naming the tunnel id and the configured
timeout. -/
def waitTimeoutMsg (id : String) (timeout : Nat) : String :=
  "Tunnel " ++ id ++ " didn't come up after " ++ durationString timeout

/-- The polling loop of `Tunnel.wait` (`src/unnamed/part_001` lines
482-497).  `poll i` is the result of the `c.status` call made `i`
seconds after the deadline was fixed (the body sleeps one second
between polls, and the very first check happens immediately).  A
failed poll aborts with its error; a `"running"` literal status
returns that poll's host; otherwise the loop breaks with the timeout
error once the current instant passes the deadline (`i > timeout`),
else sleeps and re-polls. -/
def waitLoop (id : String) (poll : Nat → Except String serverStatus)
    (timeout : Nat) (i : Nat) : Except String String :=
  match poll i with
  | .error e => .error e
  | .ok s =>
    if s.status = "running" then .ok s.host
    else if h : timeout < i then .error (waitTimeoutMsg id timeout)
    else waitLoop id poll timeout (i + 1)
termination_by timeout + 1 - i
decreasing_by omega

/-- `Tunnel.wait` (`src/unnamed/part_001` lines 476-502): the
deadline is taken on entry and polling starts immediately. -/
def wait (id : String) (poll : Nat → Except String serverStatus)
    (timeout : Nat) : Except String String :=
  waitLoop id poll timeout 0

/-- The decoded creation response (`src/unnamed/part_001` lines
383-386): assigned identifier and host. -/
structure CreateResponse where
  Id : String
  Host : String
deriving DecidableEq

/-- `Tunnel` (`src/unnamed/part_001` lines 418-426): assigned id and
host plus the two supervision channels, which are `nil` (`none`)
until explicitly created. -/
structure Tunnel where
  Id : String
  Host : String
  ServerStatus : Option Unit
  ClientStatus : Option Unit
deriving DecidableEq

/-- `Client.CreateWithTimeout` (`src/unnamed/part_001` lines 360-403)
with the network passed in: `created` is the outcome of the creation
POST, `poll` the status oracle consumed by `wait`.  Mirrors the Go
pair return `(tunnel Tunnel, err error)`: on POST failure the
zero-valued tunnel is returned with the error; on wait failure the
tunnel keeps the assigned id, an empty host and `nil` channels; only
when the wait succeeds are the `ServerStatus` and `ClientStatus`
channels created. -/
def CreateWithTimeout (created : Except String CreateResponse)
    (poll : Nat → Except String serverStatus) (timeout : Nat) :
    Tunnel × Option String :=
  match created with
  | .error e => (⟨"", "", none, none⟩, some e)
  | .ok r =>
    match wait r.Id poll timeout with
    | .error e => (⟨r.Id, "", none, none⟩, some e)
    | .ok host => (⟨r.Id, host, some (), some ()⟩, none)

/-- The non-2xx error of `Client.executeRequest` in the
`src/unnamed/part_001` revision (lines 187-196): the raised message
interpolates the request URL, the raw response body read into a
buffer, and the HTTP status line. -/
def executeRequestErrorMsg (url body status : String) : String :=
  "error querying from " ++ url ++ ", error was: " ++ body ++ ". HTTP status: " ++ status

/-- The non-2xx error of `Client.executeRequest` in the `src/rest.go`
revision (lines 180-186): the body is closed unread, so the raised
message interpolates only the request URL and the HTTP status
line. -/
def executeRequestErrorMsgRest (url status : String) : String :=
  "error querying from " ++ url ++ ". HTTP status: " ++ status

/-- Modelled from the spec: no revision under `src/` extracts the
`error` field of a JSON error body, but the spec (section 4.1)
prescribes "the extracted message text if present, else the raw
body".  This recognises bodies of the shape the spec's own example
uses — a one-field JSON object with key `error` — and extracts the
field's text. -/
def extractErrorField (body : String) : Option String :=
  if body.data.take 11 = "\x7b\"error\": \"".data ∧
      body.data.drop (body.data.length - 2) = "\"\x7d".data then
    some (String.mk ((body.data.drop 11).take (body.data.length - 13)))
  else none

/-- Modelled from the spec: the message text the spec prescribes for
a non-2xx response — the extracted `error`-field text when the body
is a JSON document containing one, else the raw body. -/
def specMessageText (body : String) : String :=
  (extractErrorField body).getD body

/-- `DefaultDomain` (`src/rest.go` line 341): the well-known sentinel
domain. -/
def DefaultDomain : String := "sauce-connect.proxy"

/-- `Metadata` (`src/unnamed/part_001` lines 294-302). -/
structure Metadata where
  Release : String
  GitVersion : String
  Build : String
  Platform : String
  Hostname : String
  NoFileLimit : Nat
  Command : String
deriving DecidableEq

/-- `Request` (`src/unnamed/part_001` lines 323-341); slice fields
are `Option` so that a `nil` slice (`none`) is told apart from an
explicit list. -/
structure Request where
  TunnelIdentifier : String
  DomainNames : Option (List String)
  DirectDomains : Option (List String)
  KGPPort : Int
  NoProxyCaching : Bool
  FastFailRegexps : Option (List String)
  SharedTunnel : Bool
  VMVersion : String
  NoSSLBumpDomains : Option (List String)
  Metadata : Metadata
  ExtraInfo : String
deriving DecidableEq

/-- `jsonRequest` (`src/unnamed/part_001` lines 304-318): the wire
document of the creation POST.  Go pointer fields are `Option`; a
pointer-to-slice field is collapsed to the pointed-at slice since the
builder always sets the pointer. -/
structure jsonRequest where
  TunnelIdentifier : Option String
  DomainNames : Option (List String)
  Metadata : Metadata
  SSHPort : Int
  NoProxyCaching : Bool
  UseKGP : Bool
  FastFailRegexps : Option (List String)
  DirectDomains : Option (List String)
  SharedTunnel : Bool
  SquidConfig : Option String
  VMVersion : Option String
  NoSSLBumpDomains : Option (List String)
  ExtraInfo : Option String
deriving DecidableEq

/-- The `jsonRequest` document `Client.CreateWithTimeout` of the
`src/unnamed/part_001` revision submits (lines 368-382): every field
is taken from the request unchanged — in particular the domain list
passes through with no defaulting. -/
def buildJsonRequest (r : Request) : jsonRequest :=
  { TunnelIdentifier := some r.TunnelIdentifier
    DomainNames := r.DomainNames
    Metadata := r.Metadata
    SSHPort := r.KGPPort
    NoProxyCaching := r.NoProxyCaching
    UseKGP := true
    FastFailRegexps := r.FastFailRegexps
    DirectDomains := r.DirectDomains
    SharedTunnel := r.SharedTunnel
    SquidConfig := none
    VMVersion := some r.VMVersion
    NoSSLBumpDomains := r.NoSSLBumpDomains
    ExtraInfo := some r.ExtraInfo }

/-- The domain list `createWithTimeout` of the `src/rest.go` revision
submits (lines 362-370): a `nil` request domain list stays `nil`
unless the tunnel name is also empty, in which case it defaults to
the single sentinel domain; an explicit list passes through. -/
def computeDomainNames (r : Request) : Option (List String) :=
  match r.DomainNames with
  | none => if r.TunnelIdentifier = "" then some [DefaultDomain] else none
  | some ds => some ds

theorem Find_empty_name_eq (domains : List String) (list : List tunnelState) :
    Find "" domains list =
      (list.filter fun st => checkOverlappingDomains domains st.DomainNames).map
        tunnelState.Id := by
  induction list with
  | nil => rfl
  | cons st rest ih =>
    by_cases h : checkOverlappingDomains domains st.DomainNames
    · simp [Find, List.filter_cons, h, ih]
    · simp [Find, List.filter_cons, h, ih]

theorem mem_Find_named (name : String) (domains : List String)
    (list : List tunnelState) (hname : name ≠ "") (id : String) :
    id ∈ Find name domains list ↔
      ∃ st, st ∈ list ∧ st.TunnelIdentifier = name ∧ st.Id = id := by
  induction list with
  | nil => simp [Find]
  | cons st rest ih =>
    by_cases h : st.TunnelIdentifier = name
    · simp only [Find, if_neg hname, if_pos h, List.mem_cons, ih]
      constructor
      · rintro (rfl | ⟨st', hst', hn, hid⟩)
        · exact ⟨st, Or.inl rfl, h, rfl⟩
        · exact ⟨st', Or.inr hst', hn, hid⟩
      · rintro ⟨st', (rfl | hst'), hn, hid⟩
        · exact Or.inl hid.symm
        · exact Or.inr ⟨st', hst', hn, hid⟩
    · simp only [Find, if_neg hname, if_neg h, List.mem_cons, ih]
      constructor
      · rintro ⟨st', hst', hn, hid⟩
        exact ⟨st', Or.inr hst', hn, hid⟩
      · rintro ⟨st', (rfl | hst'), hn, hid⟩
        · exact absurd hn h
        · exact ⟨st', hst', hn, hid⟩

theorem mem_FindRest_named (name : String) (domains : List String)
    (list : List tunnelState) (hname : name ≠ "") (id : String) :
    id ∈ FindRest name domains list ↔
      ∃ st, st ∈ list ∧ st.Id = id ∧
        (st.TunnelIdentifier = name ∨ searchDomains domains st.DomainNames = true) := by
  induction list with
  | nil => simp [FindRest]
  | cons st rest ih =>
    simp only [FindRest]
    split_ifs with h1 h2
    · simp only [List.mem_cons, ih]
      constructor
      · rintro (rfl | ⟨st', hst', hid, hc⟩)
        · exact ⟨st, Or.inl rfl, rfl, Or.inl h1.2⟩
        · exact ⟨st', Or.inr hst', hid, hc⟩
      · rintro ⟨st', (rfl | hst'), hid, hc⟩
        · exact Or.inl hid.symm
        · exact Or.inr ⟨st', hst', hid, hc⟩
    · simp only [List.mem_cons, ih]
      constructor
      · rintro (rfl | ⟨st', hst', hid, hc⟩)
        · exact ⟨st, Or.inl rfl, rfl, Or.inr h2⟩
        · exact ⟨st', Or.inr hst', hid, hc⟩
      · rintro ⟨st', (rfl | hst'), hid, hc⟩
        · exact Or.inl hid.symm
        · exact Or.inr ⟨st', hst', hid, hc⟩
    · simp only [ih]
      constructor
      · rintro ⟨st', hst', hid, hc⟩
        exact ⟨st', List.mem_cons_of_mem st hst', hid, hc⟩
      · rintro ⟨st', hst', hid, hc⟩
        rcases List.mem_cons.mp hst' with rfl | hst'
        · rcases hc with hc | hc
          · exact absurd ⟨hname, hc⟩ h1
          · exact absurd hc h2
        · exact ⟨st', hst', hid, hc⟩

/-- C3 (corrected claim, counterexample): the claim says a `Find`
query with a non-empty name never returns an entry whose name
differs, even when its domains overlap the supplied domains.  In the
`src/rest.go` revision of `Client.Find` this is false: for the
single-entry listing `[⟨"id1", "other", ["d"]⟩]` the query
`Find "n" ["d"]` (name `"n"` non-empty, entry named `"other"`)
returns `["id1"]` because the entry's domain set overlaps. -/
theorem findRest_includes_name_mismatch :
    ("n" : String) ≠ "" ∧
      ("other" : String) ≠ "n" ∧
      FindRest "n" ["d"] [⟨"id1", "other", ["d"]⟩] = ["id1"] := by
  refine ⟨by decide, by decide, by decide⟩

/-- C3 (amended): in the `part_001` revision, `Find` with a non-empty
name returns exactly the identifiers of entries whose tunnel name
equals that name, regardless of domain overlap; in the `rest.go`
revision, `Find` with a non-empty name additionally includes an entry
whenever its domain set overlaps the supplied domains, so a
name-mismatched entry is included exactly when its domains overlap. -/
theorem find_named_matching (name : String) (domains : List String)
    (list : List tunnelState) (hname : name ≠ "") :
    (∀ id, id ∈ Find name domains list ↔
        ∃ st, st ∈ list ∧ st.TunnelIdentifier = name ∧ st.Id = id) ∧
      (∀ id, id ∈ FindRest name domains list ↔
        ∃ st, st ∈ list ∧ st.Id = id ∧
          (st.TunnelIdentifier = name ∨ searchDomains domains st.DomainNames = true)) :=
  ⟨fun id => mem_Find_named name domains list hname id,
    fun id => mem_FindRest_named name domains list hname id⟩

/-- Witness for `find_named_matching` at a concrete listing. -/
theorem find_named_matching_witness :
    ("tname" : String) ≠ "" ∧
      ("x" ∈ Find "tname" ["d"] [⟨"x", "tname", []⟩] ↔
        ∃ st, st ∈ [(⟨"x", "tname", []⟩ : tunnelState)] ∧
          st.TunnelIdentifier = "tname" ∧ st.Id = "x") :=
  ⟨by decide,
    (find_named_matching "tname" ["d"] [⟨"x", "tname", []⟩] (by decide)).1 "x"⟩

/-- C4 (confirmed): `Find` with an empty name (the `part_001`
revision, lines 252-273) returns the identifier of every entry whose
domain set shares at least one domain with the supplied domains; with
distinct entry identifiers each identifier appears at most once, and
when no entry matches the result is the empty list, not an error. -/
theorem find_unnamed_spec (domains : List String) (list : List tunnelState)
    (h : (list.map tunnelState.Id).Nodup) :
    (Find "" domains list).Nodup ∧
      (∀ id, id ∈ Find "" domains list ↔
        ∃ st, st ∈ list ∧ st.Id = id ∧
          checkOverlappingDomains domains st.DomainNames = true) ∧
      ((∀ st ∈ list, checkOverlappingDomains domains st.DomainNames = false) →
        Find "" domains list = []) := by
  refine ⟨?_, ?_, ?_⟩
  · rw [Find_empty_name_eq]
    exact h.sublist (List.Sublist.map tunnelState.Id (List.filter_sublist list))
  · intro id
    rw [Find_empty_name_eq]
    simp only [List.mem_map, List.mem_filter]
    constructor
    · rintro ⟨st, ⟨hst, hp⟩, hid⟩
      exact ⟨st, hst, hid, hp⟩
    · rintro ⟨st, hst, hid, hp⟩
      exact ⟨st, ⟨hst, hp⟩, hid⟩
  · intro hnone
    rw [Find_empty_name_eq]
    rw [List.filter_eq_nil_iff.mpr (by simpa using hnone)]
    rfl

/-- Witness for `find_unnamed_spec` at a concrete listing with
distinct identifiers. -/
theorem find_unnamed_spec_witness :
    ([(⟨"a", "", ["d1"]⟩ : tunnelState), ⟨"b", "n", ["x"]⟩].map tunnelState.Id).Nodup ∧
      (Find "" ["d1"] [⟨"a", "", ["d1"]⟩, ⟨"b", "n", ["x"]⟩]).Nodup :=
  ⟨by decide,
    (find_unnamed_spec ["d1"] [⟨"a", "", ["d1"]⟩, ⟨"b", "n", ["x"]⟩] (by decide)).1⟩

/-- C1 (confirmed): in every run of the server-status activity, the
moment the observed status is anything other than `"running"` — i.e.
at the first tick whose poll succeeds with a non-`"running"` status,
failed polls and `"running"` observations notwithstanding — the
activity delivers exactly that status string on the `ServerStatus`
channel as the only value ever delivered, closes the channel, and
terminates.  The first conjunct is the dedicated
`serverStatusLoop` of the `part_001` revision; the second is the
server-status branch of the combined `Tunnel.loop` of the `rest.go`
revision, whose delivery list over the whole run is likewise the
single observed status. -/
theorem serverStatusLoop_terminal_delivery :
    (∀ (trace : List StatusPoll) (s : String),
        trace.find? observedDown = some (.polled s) →
        serverStatusLoop trace = ([s], true)) ∧
      (∀ (connected : Bool) (lastChange : Int) (events : List LoopEvent) (s : String),
        events.find? observedDownEvent = some (.termTick (.polled s)) →
        statusDeliveries (loopRun connected lastChange events).1 = [s] ∧
          (loopRun connected lastChange events).2 = true) := by
  constructor
  · intro trace
    induction trace with
    | nil => intro s h; simp [List.find?] at h
    | cons p rest ih =>
      intro s h
      cases p with
      | failed =>
        rw [List.find?_cons_of_neg _ (by simp [observedDown])] at h
        exact ih s h
      | polled s' =>
        by_cases hs : s' = "running"
        · subst hs
          rw [List.find?_cons_of_neg _ (by simp [observedDown])] at h
          simpa [serverStatusLoop] using ih s h
        · rw [List.find?_cons_of_pos _ (by simp [observedDown, hs])] at h
          obtain rfl : s' = s := by simpa using h
          simp [serverStatusLoop, hs]
  · intro connected lastChange events
    induction events generalizing connected lastChange with
    | nil => intro s h; simp [List.find?] at h
    | cons e rest ih =>
      intro s h
      cases e with
      | clientUpdate cs =>
        rw [List.find?_cons_of_neg _ (by simp [observedDownEvent])] at h
        simpa [loopRun] using ih cs.Connected cs.LastStatusChange s h
      | termTick p =>
        cases p with
        | failed =>
          rw [List.find?_cons_of_neg _ (by simp [observedDownEvent, observedDown])] at h
          simpa [loopRun] using ih connected lastChange s h
        | polled s' =>
          by_cases hs : s' = "running"
          · subst hs
            rw [List.find?_cons_of_neg _ (by simp [observedDownEvent, observedDown])] at h
            simpa [loopRun] using ih connected lastChange s h
          · rw [List.find?_cons_of_pos _
              (by simp [observedDownEvent, observedDown, hs])] at h
            obtain rfl : s' = s := by simpa using h
            simp [loopRun, hs, statusDeliveries]
      | heartbeatTick now =>
        rw [List.find?_cons_of_neg _ (by simp [observedDownEvent])] at h
        have := ih connected lastChange s h
        simpa [loopRun, statusDeliveries] using this

/-- Witness for `serverStatusLoop_terminal_delivery`: the status
sequence running, running, shutdown delivers exactly `"shutdown"`
and closes the channel, in both revisions. -/
theorem serverStatusLoop_terminal_delivery_witness :
    serverStatusLoop [.polled "running", .polled "running", .polled "shutdown"] =
        (["shutdown"], true) ∧
      statusDeliveries (loopRun true 0
          [.termTick (.polled "running"), .termTick (.polled "running"),
            .termTick (.polled "shutdown")]).1 = ["shutdown"] :=
  ⟨serverStatusLoop_terminal_delivery.1 _ "shutdown" (by decide),
    (serverStatusLoop_terminal_delivery.2 true 0 _ "shutdown" (by decide)).1⟩

/-- C6 (confirmed): delivering the liveness update
`{connected: true, lastChange: t0}` at instant `n0` and then
`{connected: false, lastChange: t1}` at instant `n1` to the
`part_001` heartbeat activity triggers, immediately at each
delivery, exactly one heartbeat request carrying that update's
connected flag and the seconds elapsed against that update's
`lastChange` — whatever the loop's start time, whatever each ping's
outcome, and whatever happens afterwards. -/
theorem heartbeatLoop_two_updates (start t0 t1 n0 n1 : Int) (f0 f1 : Bool)
    (rest : List HBEv) :
    heartbeatLoop start
        (⟨n0, .update ⟨true, t0⟩, f0⟩ :: ⟨n1, .update ⟨false, t1⟩, f1⟩ :: rest) =
      ⟨true, n0 - t0⟩ :: ⟨false, n1 - t1⟩ :: hbRun false t1 rest := rfl

/-- C7 (confirmed): errors inside the supervision activities are
swallowed and stop nothing.  First: the server-status activity skips
any run of failed polls and behaves exactly as if they had not
happened.  Second: the heartbeat activity's output is entirely
independent of which ping requests fail.  Third: the heartbeat
activity issues exactly one request per wake-up, failures
notwithstanding — it never stops. -/
theorem supervision_errors_swallowed :
    (∀ (errs rest : List StatusPoll), (∀ e ∈ errs, e = .failed) →
        serverStatusLoop (errs ++ rest) = serverStatusLoop rest) ∧
      (∀ (connected : Bool) (lastChange : Int) (evs evs' : List HBEv),
        evs.map stripPing = evs'.map stripPing →
        hbRun connected lastChange evs = hbRun connected lastChange evs') ∧
      (∀ (connected : Bool) (lastChange : Int) (evs : List HBEv),
        (hbRun connected lastChange evs).length = evs.length) := by
  refine ⟨?_, ?_, ?_⟩
  · intro errs rest h
    induction errs with
    | nil => rfl
    | cons e errs ih =>
      have he := h e (List.mem_cons_self e errs)
      subst he
      exact ih fun x hx => h x (List.mem_cons_of_mem _ hx)
  · intro connected lastChange evs
    induction evs generalizing connected lastChange with
    | nil =>
      intro evs' h
      cases evs' with
      | nil => rfl
      | cons e' rest' => simp at h
    | cons e rest ih =>
      intro evs' h
      cases evs' with
      | nil => simp at h
      | cons e' rest' =>
        simp only [List.map_cons, List.cons.injEq] at h
        obtain ⟨hhead, htail⟩ := h
        obtain ⟨hnow, hev⟩ := Prod.mk.injEq _ _ _ _ ▸ hhead
        cases e with
        | mk now ev pf =>
          cases e' with
          | mk now' ev' pf' =>
            simp only [stripPing] at hnow hev
            subst hnow; subst hev
            cases ev with
            | update cs => simpa [hbRun] using ih _ _ _ htail
            | tick => simpa [hbRun] using ih _ _ _ htail
  · intro connected lastChange evs
    induction evs generalizing connected lastChange with
    | nil => rfl
    | cons e rest ih =>
      cases h : e.ev with
      | update cs => simp [hbRun, h, ih]
      | tick => simp [hbRun, h, ih]

/-- Witness for `supervision_errors_swallowed`: a failed poll before
a running observation changes nothing, and a heartbeat run whose
only ping fails issues the same single request as one whose ping
succeeds. -/
theorem supervision_errors_swallowed_witness :
    serverStatusLoop [.failed, .polled "running"] =
        serverStatusLoop [.polled "running"] ∧
      hbRun false 0 [⟨3, .tick, true⟩] = hbRun false 0 [⟨3, .tick, false⟩] ∧
      (hbRun false 0 [⟨3, .tick, true⟩]).length = 1 :=
  ⟨supervision_errors_swallowed.1 [.failed] [.polled "running"] (by decide),
    supervision_errors_swallowed.2.1 false 0 [⟨3, .tick, true⟩] [⟨3, .tick, false⟩]
      (by decide),
    supervision_errors_swallowed.2.2 false 0 [⟨3, .tick, true⟩]⟩

/-- C10 (confirmed): the combined supervision loop of the `rest.go`
revision blocks receiving on the `ClientStatus` channel before
entering its select loop, so any wake-ups preceding the first
delivered liveness update produce no poll, no heartbeat and no
delivery — the run is exactly the run of the remaining events — and
a run in which no update is ever delivered produces no effect at
all. -/
theorem loop_waits_for_first_update (pre rest : List LoopEvent)
    (h : ∀ e ∈ pre, e.isClientUpdate = false) :
    loop (pre ++ rest) = loop rest ∧ loop pre = ([], false) := by
  induction pre with
  | nil => exact ⟨rfl, rfl⟩
  | cons e pre ih =>
    have he := h e (List.mem_cons_self e pre)
    have h' : ∀ x ∈ pre, x.isClientUpdate = false :=
      fun x hx => h x (List.mem_cons_of_mem e hx)
    cases e with
    | clientUpdate cs => simp [LoopEvent.isClientUpdate] at he
    | termTick p => simpa [loop] using ih h'
    | heartbeatTick n => simpa [loop] using ih h'

/-- Witness for `loop_waits_for_first_update`: even a tick observing
`"shutdown"` and a heartbeat tick, both arriving before any liveness
update, cause nothing. -/
theorem loop_waits_for_first_update_witness :
    loop ([.termTick (.polled "shutdown"), .heartbeatTick 5] ++
          [.clientUpdate ⟨true, 0⟩, .heartbeatTick 7]) =
        loop [.clientUpdate ⟨true, 0⟩, .heartbeatTick 7] ∧
      loop [.termTick (.polled "shutdown"), .heartbeatTick 5] = ([], false) :=
  loop_waits_for_first_update _ _ (by decide)

theorem string_data_append (a b : String) : (a ++ b).data = a.data ++ b.data := by
  cases a
  cases b
  rfl

theorem string_data_inj (a b : String) (h : a.data = b.data) : a = b := by
  cases a
  cases b
  exact congrArg String.mk h

theorem waitLoop_eq (id : String) (poll : Nat → Except String serverStatus)
    (timeout i : Nat) :
    waitLoop id poll timeout i =
      match poll i with
      | .error e => .error e
      | .ok s =>
        if s.status = "running" then .ok s.host
        else if _h : timeout < i then .error (waitTimeoutMsg id timeout)
        else waitLoop id poll timeout (i + 1) := by
  rw [waitLoop]

theorem waitLoop_never_running (id : String)
    (poll : Nat → Except String serverStatus) (timeout : Nat)
    (hall : ∀ i, ∃ s, poll i = .ok s ∧ s.status ≠ "running") :
    ∀ n i, timeout + 1 - i ≤ n →
      waitLoop id poll timeout i = .error (waitTimeoutMsg id timeout) := by
  intro n
  induction n with
  | zero =>
    intro i hle
    obtain ⟨s, hs, hns⟩ := hall i
    rw [waitLoop_eq, hs]
    dsimp only
    rw [if_neg hns, dif_pos (by omega)]
  | succ n ih =>
    intro i hle
    obtain ⟨s, hs, hns⟩ := hall i
    rw [waitLoop_eq, hs]
    dsimp only
    rw [if_neg hns]
    by_cases hti : timeout < i
    · rw [dif_pos hti]
    · rw [dif_neg hti]
      exact ih (i + 1) (by omega)

theorem wait_never_running (id : String)
    (poll : Nat → Except String serverStatus) (timeout : Nat)
    (hall : ∀ i, ∃ s, poll i = .ok s ∧ s.status ≠ "running") :
    wait id poll timeout = .error (waitTimeoutMsg id timeout) :=
  waitLoop_never_running id poll timeout hall (timeout + 1) 0 (by omega)

theorem waitLoop_first_running (id : String)
    (poll : Nat → Except String serverStatus) (timeout k : Nat) (sk : serverStatus)
    (hk : poll k = .ok sk) (hrun : sk.status = "running")
    (hbefore : ∀ j, j < k → ∃ s, poll j = .ok s ∧ s.status ≠ "running")
    (hkle : k ≤ timeout + 1) :
    ∀ n i, k - i ≤ n → i ≤ k → waitLoop id poll timeout i = .ok sk.host := by
  intro n
  induction n with
  | zero =>
    intro i h1 h2
    have hik : i = k := by omega
    subst hik
    rw [waitLoop_eq, hk]
    dsimp only
    rw [if_pos hrun]
  | succ n ih =>
    intro i h1 h2
    by_cases hik : i = k
    · subst hik
      rw [waitLoop_eq, hk]
      dsimp only
      rw [if_pos hrun]
    · have hlt : i < k := lt_of_le_of_ne h2 hik
      obtain ⟨s, hs, hns⟩ := hbefore i hlt
      rw [waitLoop_eq, hs]
      dsimp only
      rw [if_neg hns, dif_neg (by omega)]
      exact ih (i + 1) (by omega) (by omega)

/-- C2 (confirmed): when every status poll succeeds with a
non-`"running"` status, `CreateWithTimeout` fails with the timeout
error of `Tunnel.wait` — whose message contains the assigned tunnel
identifier and the rendered configured duration — and the returned
tunnel's `ServerStatus` and `ClientStatus` channels stay `nil`;
moreover, over all runs, a created channel implies the run returned
no error, i.e. the channels are initialized only when the wait
succeeds. -/
theorem createWithTimeout_timeout_spec (r : CreateResponse)
    (poll : Nat → Except String serverStatus) (timeout : Nat)
    (hall : ∀ i, ∃ s, poll i = .ok s ∧ s.status ≠ "running") :
    CreateWithTimeout (.ok r) poll timeout =
        (⟨r.Id, "", none, none⟩, some (waitTimeoutMsg r.Id timeout)) ∧
      (∃ a b, waitTimeoutMsg r.Id timeout = a ++ r.Id ++ b) ∧
      (∃ c d, waitTimeoutMsg r.Id timeout = c ++ durationString timeout ++ d) ∧
      (∀ (created : Except String CreateResponse)
          (poll' : Nat → Except String serverStatus) (timeout' : Nat),
        ((CreateWithTimeout created poll' timeout').1.ServerStatus ≠ none ∨
            (CreateWithTimeout created poll' timeout').1.ClientStatus ≠ none) →
          (CreateWithTimeout created poll' timeout').2 = none) := by
  refine ⟨?_, ?_, ?_, ?_⟩
  · have hw := wait_never_running r.Id poll timeout hall
    simp [CreateWithTimeout, hw]
  · exact ⟨"Tunnel ", " didn't come up after " ++ durationString timeout,
      by simp [waitTimeoutMsg, String.append_assoc]⟩
  · exact ⟨"Tunnel " ++ r.Id ++ " didn't come up after ", "",
      by simp [waitTimeoutMsg, String.append_assoc, String.append_empty]⟩
  · intro created poll' timeout' h
    cases created with
    | error e => simp [CreateWithTimeout] at h
    | ok r' =>
      cases hw : wait r'.Id poll' timeout' with
      | error e => simp [CreateWithTimeout, hw] at h
      | ok host => simp [CreateWithTimeout, hw]

/-- Witness for `createWithTimeout_timeout_spec`: a poll stuck on
`"new"` with a one-second timeout yields the timeout error and `nil`
channels. -/
theorem createWithTimeout_timeout_spec_witness :
    CreateWithTimeout (.ok ⟨"tid", "h0"⟩) (fun _ => .ok ⟨"new", none, ""⟩) 1 =
      (⟨"tid", "", none, none⟩, some (waitTimeoutMsg "tid" 1)) :=
  (createWithTimeout_timeout_spec ⟨"tid", "h0"⟩ (fun _ => .ok ⟨"new", none, ""⟩) 1
    (fun _ => ⟨⟨"new", none, ""⟩, rfl, by decide⟩)).1

/-- C5 (confirmed): when the `k`-th poll is the first to report the
literal status `"running"` and the deadline has not yet passed at the
preceding polls (`k ≤ timeout + 1`), `CreateWithTimeout` succeeds
with a tunnel whose identifier is the one assigned by the creation
response and whose host is the host carried by that first `"running"`
poll, and both supervision channels are created. -/
theorem createWithTimeout_success_spec (r : CreateResponse)
    (poll : Nat → Except String serverStatus) (timeout k : Nat) (sk : serverStatus)
    (hk : poll k = .ok sk) (hrun : sk.status = "running")
    (hbefore : ∀ j, j < k → ∃ s, poll j = .ok s ∧ s.status ≠ "running")
    (hkle : k ≤ timeout + 1) :
    CreateWithTimeout (.ok r) poll timeout =
      (⟨r.Id, sk.host, some (), some ()⟩, none) := by
  have hw : wait r.Id poll timeout = .ok sk.host :=
    waitLoop_first_running r.Id poll timeout k sk hk hrun hbefore hkle k 0
      (by omega) (by omega)
  simp [CreateWithTimeout, hw]

/-- Witness for `createWithTimeout_success_spec`: one `"new"` poll
followed by a `"running"` poll carrying host `"host9"`. -/
theorem createWithTimeout_success_spec_witness :
    CreateWithTimeout (.ok ⟨"tid2", "h0"⟩)
        (fun i => if i = 0 then .ok ⟨"new", none, ""⟩
          else .ok ⟨"running", none, "host9"⟩) 5 =
      (⟨"tid2", "host9", some (), some ()⟩, none) :=
  createWithTimeout_success_spec ⟨"tid2", "h0"⟩ _ 5 1 ⟨"running", none, "host9"⟩
    rfl rfl
    (fun j hj => by
      have hj0 : j = 0 := Nat.lt_one_iff.mp hj
      subst hj0
      exact ⟨⟨"new", none, ""⟩, rfl, by decide⟩)
    (by omega)

/-- C8 (corrected claim, counterexample): the claim says the raised
error's message text is the extracted `error`-field text when the
body is a JSON document containing one.  No revision extracts: for a
non-2xx response with body
`{"error": "Too many active org tunnels: 11 >= 10"}`, the message the
`part_001` revision raises embeds the raw body and differs from the
message the spec prescribes (the extracted text in the message slot),
and the `rest.go` revision's message omits the body altogether,
carrying only URL and status. -/
theorem executeRequest_raw_body_cex :
    specMessageText "\x7b\"error\": \"Too many active org tunnels: 11 >= 10\"\x7d" =
        "Too many active org tunnels: 11 >= 10" ∧
      executeRequestErrorMsg "http://fake/tunnels"
          "\x7b\"error\": \"Too many active org tunnels: 11 >= 10\"\x7d"
          "401 Unauthorized" ≠
        executeRequestErrorMsg "http://fake/tunnels"
          (specMessageText "\x7b\"error\": \"Too many active org tunnels: 11 >= 10\"\x7d")
          "401 Unauthorized" ∧
      executeRequestErrorMsgRest "http://fake/tunnels" "401 Unauthorized" =
        "error querying from http://fake/tunnels. HTTP status: 401 Unauthorized" := by
  refine ⟨by decide, by decide, by decide⟩

/-- C8 (amended): on a non-2xx response the `part_001` revision
raises an error whose message carries the URL, the raw response body
verbatim (no `error`-field extraction), and the HTTP status line —
so a JSON error body surfaces whole, and in particular its
`error`-field text appears inside the message as a substring of the
raw body; the `rest.go` revision's message carries only the URL and
the status line. -/
theorem executeRequest_error_components (url status body text : String) :
    (∃ a b, executeRequestErrorMsg url body status = a ++ url ++ b) ∧
      (∃ a b, executeRequestErrorMsg url body status = a ++ body ++ b) ∧
      (∃ a b, executeRequestErrorMsg url body status = a ++ status ++ b) ∧
      (∃ a b, executeRequestErrorMsg url
          ("\x7b\"error\": \"" ++ text ++ "\"\x7d") status = a ++ text ++ b) ∧
      (∃ a b, executeRequestErrorMsgRest url status = a ++ url ++ b) ∧
      (∃ a b, executeRequestErrorMsgRest url status = a ++ status ++ b) := by
  refine
    ⟨⟨"error querying from ", ", error was: " ++ body ++ ". HTTP status: " ++ status, ?_⟩,
      ⟨"error querying from " ++ url ++ ", error was: ", ". HTTP status: " ++ status, ?_⟩,
      ⟨"error querying from " ++ url ++ ", error was: " ++ body ++ ". HTTP status: ",
        "", ?_⟩,
      ⟨"error querying from " ++ url ++ ", error was: " ++ "\x7b\"error\": \"",
        "\"\x7d" ++ ". HTTP status: " ++ status, ?_⟩,
      ⟨"error querying from ", ". HTTP status: " ++ status, ?_⟩,
      ⟨"error querying from " ++ url ++ ". HTTP status: ", "", ?_⟩⟩ <;>
    · apply string_data_inj
      simp [executeRequestErrorMsg, executeRequestErrorMsgRest, string_data_append,
        List.append_assoc]

/-- C9 (corrected claim, counterexample): the claim says a creation
request supplying neither a tunnel name nor an explicit domain list
is submitted with the domain list defaulted to the sentinel domain.
The `part_001` revision of `CreateWithTimeout` performs no such
defaulting — it submits the request's (here `nil`) domain list
unchanged — while the `rest.go` revision does default it. -/
theorem createWithTimeout_no_default_cex :
    (buildJsonRequest
        ⟨"", none, none, 0, false, none, false, "", none,
          ⟨"", "", "", "", "", 0, ""⟩, ""⟩).DomainNames = none ∧
      (none : Option (List String)) ≠ some [DefaultDomain] ∧
      computeDomainNames
          ⟨"", none, none, 0, false, none, false, "", none,
            ⟨"", "", "", "", "", 0, ""⟩, ""⟩ = some [DefaultDomain] := by
  refine ⟨rfl, by decide, rfl⟩

/-- C9 (amended): in the `rest.go` revision a creation request with
no tunnel name and a `nil` domain list is submitted with the single
sentinel domain, a named request with a `nil` domain list is
submitted with no domains, and an explicit domain list always passes
through unchanged; the `part_001` revision never defaults — the
submitted document's domain list always equals the request's. -/
theorem domain_defaulting_spec (r : Request) :
    (buildJsonRequest r).DomainNames = r.DomainNames ∧
      (r.TunnelIdentifier = "" → r.DomainNames = none →
        computeDomainNames r = some [DefaultDomain]) ∧
      (r.TunnelIdentifier ≠ "" → r.DomainNames = none →
        computeDomainNames r = none) ∧
      (∀ ds, r.DomainNames = some ds → computeDomainNames r = some ds) := by
  refine ⟨rfl, ?_, ?_, ?_⟩
  · intro h1 h2
    simp [computeDomainNames, h2, h1]
  · intro h1 h2
    simp [computeDomainNames, h2, h1]
  · intro ds h
    simp [computeDomainNames, h]

/-- Witness for `domain_defaulting_spec`: an explicitly supplied
domain list passes through unchanged. -/
theorem domain_defaulting_spec_witness :
    computeDomainNames
        ⟨"named", some ["d"], none, 0, false, none, false, "", none,
          ⟨"", "", "", "", "", 0, ""⟩, ""⟩ = some ["d"] ∧
      computeDomainNames
        ⟨"named2", none, none, 0, false, none, false, "", none,
          ⟨"", "", "", "", "", 0, ""⟩, ""⟩ = none :=
  ⟨(domain_defaulting_spec
      ⟨"named", some ["d"], none, 0, false, none, false, "", none,
        ⟨"", "", "", "", "", 0, ""⟩, ""⟩).2.2.2 ["d"] rfl,
    (domain_defaulting_spec
      ⟨"named2", none, none, 0, false, none, false, "", none,
        ⟨"", "", "", "", "", 0, ""⟩, ""⟩).2.2.1 (by decide) rfl⟩
